import Mathlib

/-!
Verification of the Local Food Wastage Management System's data model,
reporting queries (`sql_queries.py`), maintenance utilities
(`database_utils.py`) and schema/load layer (`database_setup.py`),
as a shallow embedding in Lean 4.

Tables are lists of typed rows. SQLite's TEXT comparison (used on the
`Expiry_Date` column, stored as ISO-8601 strings) is bytewise, which for
ASCII strings coincides with lexicographic order on the character list.
`julianday` values are modelled as rationals supplied by a valuation
function, since the queries only use their differences and order.
-/

namespace FoodWaste

/-- Bytewise comparison of SQLite TEXT values: for the ASCII ISO-8601 date
strings of this schema it is lexicographic order on the character list. -/
def sqliteTextLt (a b : String) : Bool := decide (a.data < b.data)

/-- Boolean `<=` on TEXT values, as used by ascending ORDER BY on a date column. -/
def sqliteTextLe (a b : String) : Bool := !(sqliteTextLt b a)

/-- Row of the `providers` table (schema in `database_setup.py`). -/
structure Provider where
  Provider_ID : Nat
  Name : String
  «Type» : String
  Address : String
  City : String
  Contact : String
deriving DecidableEq, Repr

/-- Row of the `receivers` table. -/
structure Receiver where
  Receiver_ID : Nat
  Name : String
  «Type» : String
  City : String
  Contact : String
deriving DecidableEq, Repr

/-- Row of the `food_listings` table. -/
structure FoodListing where
  Food_ID : Nat
  Food_Name : String
  Quantity : Int
  Expiry_Date : String
  Provider_ID : Nat
  Provider_Type : String
  Location : String
  Food_Type : String
  Meal_Type : String
deriving DecidableEq, Repr

/-- Row of the `claims` table. -/
structure Claim where
  Claim_ID : Nat
  Food_ID : Nat
  Receiver_ID : Nat
  Status : String
  Timestamp : String
deriving DecidableEq, Repr

/-- The whole database state: the four tables. -/
structure DB where
  providers : List Provider
  receivers : List Receiver
  food_listings : List FoodListing
  claims : List Claim
deriving DecidableEq, Repr

/-- Embedding of `DatabaseUtils.clean_expired_food` (`database_utils.py` lines
79-103): count the `food_listings` rows with `Expiry_Date < date('now')`,
delete them when the count is positive, and return the count. `today` is the
value of SQLite's `date('now')`. -/
def clean_expired_food (db : DB) (today : String) : Nat × DB :=
  let expired_count := db.food_listings.countP (fun fl => sqliteTextLt fl.Expiry_Date today)
  if expired_count > 0 then
    (expired_count,
      { db with food_listings :=
          db.food_listings.filter (fun fl => !sqliteTextLt fl.Expiry_Date today) })
  else
    (expired_count, db)

lemma clean_expired_food_fst (db : DB) (today : String) :
    (clean_expired_food db today).1 =
      db.food_listings.countP (fun fl => sqliteTextLt fl.Expiry_Date today) := by
  simp only [clean_expired_food]
  split <;> rfl

lemma clean_expired_food_snd_listings (db : DB) (today : String) :
    (clean_expired_food db today).2.food_listings =
      if db.food_listings.countP (fun fl => sqliteTextLt fl.Expiry_Date today) > 0
      then db.food_listings.filter (fun fl => !sqliteTextLt fl.Expiry_Date today)
      else db.food_listings := by
  simp only [clean_expired_food]
  split
  next h => rfl
  next h => rfl

lemma countP_filter_not_eq_zero {α : Type _} (p : α → Bool) (l : List α) :
    (l.filter (fun a => !p a)).countP p = 0 := by
  rw [List.countP_filter]
  apply List.countP_eq_zero.mpr
  intro a _
  simp

lemma countP_add_length_filter_not {α : Type _} (p : α → Bool) (l : List α) :
    l.countP p + (l.filter (fun a => !p a)).length = l.length := by
  induction l with
  | nil => rfl
  | cons x xs ih =>
    cases h : p x
    · simp [List.countP_cons, List.filter_cons, h]
      omega
    · simp [List.countP_cons, List.filter_cons, h]
      omega

/-- C3: `clean_expired_food` removes exactly the `food_listings` rows with
`Expiry_Date` strictly before the current date (every other row keeps its
multiplicity), returns the number of rows removed (which is the count of
qualifying rows, so 0 when nothing qualifies), and an immediate second run
returns 0. -/
theorem clean_expired_food_correct (db : DB) (today : String) :
    (clean_expired_food db today).1 =
        db.food_listings.countP (fun fl => sqliteTextLt fl.Expiry_Date today)
    ∧ (∀ fl : FoodListing,
        List.count fl (clean_expired_food db today).2.food_listings =
          if sqliteTextLt fl.Expiry_Date today then 0
          else List.count fl db.food_listings)
    ∧ (clean_expired_food db today).1
        + (clean_expired_food db today).2.food_listings.length
        = db.food_listings.length
    ∧ (clean_expired_food (clean_expired_food db today).2 today).1 = 0 := by
  refine ⟨clean_expired_food_fst db today, ?_, ?_, ?_⟩
  · intro fl
    rw [clean_expired_food_snd_listings]
    by_cases hpos :
        db.food_listings.countP (fun fl => sqliteTextLt fl.Expiry_Date today) > 0
    · rw [if_pos hpos]
      cases hb : sqliteTextLt fl.Expiry_Date today
      · simp only [Bool.false_eq_true, if_false]
        exact List.count_filter
          (show (!(sqliteTextLt fl.Expiry_Date today)) = true by rw [hb]; rfl)
      · simp only [if_true]
        rw [List.count_eq_zero]
        intro hmem
        have h2 := (List.mem_filter.mp hmem).2
        rw [hb] at h2
        simp at h2
    · rw [if_neg hpos]
      have hzero : db.food_listings.countP
          (fun fl => sqliteTextLt fl.Expiry_Date today) = 0 := by omega
      cases hb : sqliteTextLt fl.Expiry_Date today
      · simp only [Bool.false_eq_true, if_false]
      · simp only [if_true]
        rw [List.count_eq_zero]
        intro hmem
        have := List.countP_eq_zero.mp hzero fl hmem
        rw [hb] at this
        simp at this
  · rw [clean_expired_food_fst, clean_expired_food_snd_listings]
    by_cases hpos :
        db.food_listings.countP (fun fl => sqliteTextLt fl.Expiry_Date today) > 0
    · rw [if_pos hpos]
      exact countP_add_length_filter_not _ db.food_listings
    · rw [if_neg hpos]
      omega
  · rw [clean_expired_food_fst, clean_expired_food_snd_listings]
    by_cases hpos :
        db.food_listings.countP (fun fl => sqliteTextLt fl.Expiry_Date today) > 0
    · rw [if_pos hpos]
      exact countP_filter_not_eq_zero _ db.food_listings
    · rw [if_neg hpos]
      omega

/-- Storage-level view of the database file used by `DatabaseSetup`
(`database_setup.py`): each of the four tables is either absent (`none`,
before `CREATE TABLE`) or present with its current rows. -/
structure Storage where
  providers : Option (List Provider)
  receivers : Option (List Receiver)
  food_listings : Option (List FoodListing)
  claims : Option (List Claim)
deriving DecidableEq, Repr

/-- Semantics of `CREATE TABLE IF NOT EXISTS`: create the table empty when it
is absent, leave it (and its rows) untouched when it exists. -/
def createTableIfNotExists {α : Type _} (t : Option (List α)) : Option (List α) :=
  match t with
  | none => some []
  | some rows => some rows

/-- Embedding of `DatabaseSetup.create_tables` (`database_setup.py` lines
25-95): issue `CREATE TABLE IF NOT EXISTS` for each of the four tables. -/
def create_tables (s : Storage) : Storage :=
  { providers := createTableIfNotExists s.providers
    receivers := createTableIfNotExists s.receivers
    food_listings := createTableIfNotExists s.food_listings
    claims := createTableIfNotExists s.claims }

/-- Semantics of `DROP TABLE` (first step of pandas `to_sql` with
`if_exists='replace'`). -/
def dropTable {α : Type _} (_t : Option (List α)) : Option (List α) := none

/-- Appending rows with SQL INSERT: only defined on an existing table. -/
def insertRows {α : Type _} (t : Option (List α)) (rows : List α) : Option (List α) :=
  match t with
  | none => none
  | some existing => some (existing ++ rows)

/-- Semantics of pandas `DataFrame.to_sql(..., if_exists='replace')` as used by
`load_csv_data`: drop the table if present, recreate it, insert the frame's
rows. -/
def replaceTable {α : Type _} (t : Option (List α)) (rows : List α) : Option (List α) :=
  insertRows (createTableIfNotExists (dropTable t)) rows

/-- Embedding of `DatabaseSetup.load_csv_data` (`database_setup.py` lines
97-139): replace each of the four tables in turn with the rows parsed from its
CSV source. -/
def load_csv_data (s : Storage) (ps : List Provider) (rs : List Receiver)
    (fls : List FoodListing) (cs : List Claim) : Storage :=
  let s1 := { s with providers := replaceTable s.providers ps }
  let s2 := { s1 with receivers := replaceTable s1.receivers rs }
  let s3 := { s2 with food_listings := replaceTable s2.food_listings fls }
  { s3 with claims := replaceTable s3.claims cs }

/-- C7: loading a row set for each table via `load_csv_data`'s per-table
replace step and reading the full table back returns exactly the loaded rows
(hence the same multiset), for every prior storage state — any rows previously
in a table are gone. -/
theorem load_csv_data_roundtrip (s : Storage) (ps : List Provider)
    (rs : List Receiver) (fls : List FoodListing) (cs : List Claim) :
    (load_csv_data s ps rs fls cs).providers = some ps
    ∧ (load_csv_data s ps rs fls cs).receivers = some rs
    ∧ (load_csv_data s ps rs fls cs).food_listings = some fls
    ∧ (load_csv_data s ps rs fls cs).claims = some cs
    ∧ (((load_csv_data s ps rs fls cs).providers.getD []) : Multiset Provider) = (ps : Multiset Provider)
    ∧ (((load_csv_data s ps rs fls cs).claims.getD []) : Multiset Claim) = (cs : Multiset Claim) := by
  refine ⟨rfl, rfl, rfl, rfl, rfl, rfl⟩

/-- C8: `create_tables` is idempotent: when the four tables already exist the
call leaves the storage (including every row) unchanged, and in general
running it twice is the same as running it once. -/
theorem create_tables_idempotent (s : Storage) (hp : s.providers.isSome)
    (hr : s.receivers.isSome) (hf : s.food_listings.isSome)
    (hc : s.claims.isSome) :
    create_tables s = s ∧ create_tables (create_tables s) = create_tables s := by
  obtain ⟨op, or, of, oc⟩ := s
  obtain ⟨p, hp'⟩ := Option.isSome_iff_exists.mp hp
  obtain ⟨r, hr'⟩ := Option.isSome_iff_exists.mp hr
  obtain ⟨f, hf'⟩ := Option.isSome_iff_exists.mp hf
  obtain ⟨c, hc'⟩ := Option.isSome_iff_exists.mp hc
  subst hp' hr' hf' hc'
  have h1 : create_tables (Storage.mk (some p) (some r) (some f) (some c)) =
      Storage.mk (some p) (some r) (some f) (some c) := rfl
  exact ⟨h1, by rw [h1, h1]⟩

/-- Witness for C8 at a concrete populated storage state. -/
theorem create_tables_idempotent_witness :
    create_tables
        { providers := some [⟨1, "A", "Restaurant", "Addr", "City X", "123"⟩]
          receivers := some []
          food_listings := some [⟨1, "Rice", 10, "2099-01-01", 1, "Restaurant", "City X", "Vegetarian", "Lunch"⟩]
          claims := some [⟨1, 1, 1, "Pending", "2024-01-01 10:00:00"⟩] } =
      { providers := some [⟨1, "A", "Restaurant", "Addr", "City X", "123"⟩]
        receivers := some []
        food_listings := some [⟨1, "Rice", 10, "2099-01-01", 1, "Restaurant", "City X", "Vegetarian", "Lunch"⟩]
        claims := some [⟨1, 1, 1, "Pending", "2024-01-01 10:00:00"⟩] } :=
  (create_tables_idempotent
    { providers := some [⟨1, "A", "Restaurant", "Addr", "City X", "123"⟩]
      receivers := some []
      food_listings := some [⟨1, "Rice", 10, "2099-01-01", 1, "Restaurant", "City X", "Vegetarian", "Lunch"⟩]
      claims := some [⟨1, 1, 1, "Pending", "2024-01-01 10:00:00"⟩] }
    rfl rfl rfl rfl).1

/-- Result of `SQLQueries.execute_query`: the tabular data, plus the error
message printed on failure (`none` on success). -/
structure QueryResult where
  rows : List (List String)
  error_message : Option String
deriving DecidableEq, Repr

/-- An abstract SQL engine as seen by `execute_query`: given the SQL text and
the optional positional parameter tuple, `pandas.read_sql_query` either
returns a table or raises, modelled as `Except`. -/
def Engine : Type :=
  String → Option (List String) → Except String (List (List String))

/-- Argument actually handed to the engine: the source's `if params:` test is
falsy both for `None` and for an empty tuple, in which case `read_sql_query`
is called without params. -/
def paramArg (params : Option (List String)) : Option (List String) :=
  match params with
  | some ps => if ps.isEmpty then none else some ps
  | none => none

/-- Embedding of `SQLQueries.execute_query` (`sql_queries.py` lines 8-20):
run the query through the engine, catching every failure and degrading to an
empty DataFrame plus a printed error message. The SQL text is handed to the
engine verbatim and the params are passed separately (positional binding). -/
def execute_query (engine : Engine) (query : String)
    (params : Option (List String)) : QueryResult :=
  match engine query (paramArg params) with
  | .ok df => { rows := df, error_message := none }
  | .error e => { rows := [], error_message := some ("Error executing query: " ++ e) }

/-- C9: `execute_query` is a total function (no exception escapes): on any
engine failure — malformed SQL included — it returns an empty table plus an
error signal, on success the engine's table with no error; and the engine only
ever sees the verbatim SQL text with the params passed separately, so two
engines agreeing on that one call are indistinguishable (no interpolation of
params into the SQL text). -/
theorem execute_query_total_and_positional (engine engine2 : Engine)
    (query : String) (params : Option (List String)) :
    (∀ e : String, engine query (paramArg params) = Except.error e →
      execute_query engine query params =
        { rows := [], error_message := some ("Error executing query: " ++ e) })
    ∧ (∀ t : List (List String), engine query (paramArg params) = Except.ok t →
      execute_query engine query params = { rows := t, error_message := none })
    ∧ (engine query (paramArg params) = engine2 query (paramArg params) →
      execute_query engine query params = execute_query engine2 query params) := by
  refine ⟨?_, ?_, ?_⟩
  · intro e he
    simp only [execute_query, he]
  · intro t ht
    simp only [execute_query, ht]
  · intro hagree
    simp only [execute_query, hagree]

/-- Witness for C9: a concrete engine that always raises (as on malformed
SQL) yields the empty-table-plus-error result. -/
theorem execute_query_total_and_positional_witness :
    execute_query (fun _ _ => Except.error "syntax error") "SELEC * FROM providers" none =
      { rows := [], error_message := some "Error executing query: syntax error" } :=
  (execute_query_total_and_positional (fun _ _ => Except.error "syntax error")
    (fun _ _ => Except.error "syntax error") "SELEC * FROM providers" none).1
    "syntax error" rfl

/-- Derived status CASE expression of query 14 (`sql_queries.py` lines
252-257), applied to `Days_Until_Expiry`. -/
def expiryStatus (d : ℚ) : String :=
  if d < 0 then "Expired"
  else if d ≤ 1 then "Critical"
  else if d ≤ 3 then "Warning"
  else "Safe"

/-- Output row of `query_14_expiring_food`. -/
structure ExpiringRow where
  Food_Name : String
  Quantity : Int
  Expiry_Date : String
  Location : String
  Food_Type : String
  Meal_Type : String
  Days_Until_Expiry : ℚ
  Status : String
deriving DecidableEq, Repr

/-- The SELECT projection of query 14. `jd` is the `julianday` valuation of a
date string and `now` is `julianday('now')` (the current moment). -/
def mkExpiringRow (jd : String → ℚ) (now : ℚ) (fl : FoodListing) : ExpiringRow :=
  { Food_Name := fl.Food_Name
    Quantity := fl.Quantity
    Expiry_Date := fl.Expiry_Date
    Location := fl.Location
    Food_Type := fl.Food_Type
    Meal_Type := fl.Meal_Type
    Days_Until_Expiry := jd fl.Expiry_Date - now
    Status := expiryStatus (jd fl.Expiry_Date - now) }

/-- Boolean comparison used for `ORDER BY Days_Until_Expiry ASC`. -/
def expiryLe (a b : ExpiringRow) : Bool :=
  decide (a.Days_Until_Expiry ≤ b.Days_Until_Expiry)

/-- Embedding of `SQLQueries.query_14_expiring_food` (`sql_queries.py` lines
241-262): keep the listings with `julianday(Expiry_Date) - julianday('now')
<= 5`, project each with its fractional days-until-expiry and derived status,
and order ascending by days-until-expiry. -/
def query_14_expiring_food (db : DB) (jd : String → ℚ) (now : ℚ) :
    List ExpiringRow :=
  ((db.food_listings.filter (fun fl => decide (jd fl.Expiry_Date - now ≤ 5))).map
      (mkExpiringRow jd now)).mergeSort expiryLe

lemma expiryLe_trans : ∀ a b c : ExpiringRow,
    expiryLe a b = true → expiryLe b c = true → expiryLe a c = true := by
  intro a b c hab hbc
  exact decide_eq_true (le_trans (of_decide_eq_true hab) (of_decide_eq_true hbc))

lemma expiryLe_total : ∀ a b : ExpiringRow, (expiryLe a b || expiryLe b a) = true := by
  intro a b
  simp only [expiryLe, Bool.or_eq_true, decide_eq_true_iff]
  exact le_total _ _

lemma query_14_mem (db : DB) (jd : String → ℚ) (now : ℚ) (r : ExpiringRow) :
    r ∈ query_14_expiring_food db jd now ↔
      ∃ fl, fl ∈ db.food_listings ∧ jd fl.Expiry_Date - now ≤ 5
        ∧ r = mkExpiringRow jd now fl := by
  unfold query_14_expiring_food
  rw [(List.mergeSort_perm _ _).mem_iff]
  simp only [List.mem_map, List.mem_filter, decide_eq_true_iff]
  constructor
  · rintro ⟨fl, ⟨hmem, hle⟩, rfl⟩
    exact ⟨fl, hmem, hle, rfl⟩
  · rintro ⟨fl, hmem, hle, rfl⟩
    exact ⟨fl, ⟨hmem, hle⟩, rfl⟩

lemma expiryStatus_spec (d : ℚ) :
    (d < 0 → expiryStatus d = "Expired")
    ∧ (0 ≤ d → d ≤ 1 → expiryStatus d = "Critical")
    ∧ (1 < d → d ≤ 3 → expiryStatus d = "Warning")
    ∧ (3 < d → expiryStatus d = "Safe") := by
  unfold expiryStatus
  refine ⟨fun h => by rw [if_pos h], fun h0 h1 => ?_, fun h1 h3 => ?_, fun h3 => ?_⟩
  · rw [if_neg (not_lt.mpr h0), if_pos h1]
  · rw [if_neg (by linarith), if_neg (by linarith), if_pos h3]
  · rw [if_neg (by linarith), if_neg (by linarith), if_neg (by linarith)]

/-- C2: query 14 contains a listing's row exactly when its fractional
days-until-expiry is at most 5; each row's derived status is `Expired` when
days-until-expiry is negative, `Critical` when it is in [0,1], `Warning` when
in (1,3], `Safe` when above 3; the rows are sorted ascending by
days-until-expiry; and a listing whose expiry date is yesterday (its julian
day at least one whole day before the current moment) is included and
classified `Expired`. -/
theorem query_14_expiring_food_correct (db : DB) (jd : String → ℚ) (now : ℚ) :
    (∀ fl ∈ db.food_listings, jd fl.Expiry_Date - now ≤ 5 →
        mkExpiringRow jd now fl ∈ query_14_expiring_food db jd now)
    ∧ (∀ r ∈ query_14_expiring_food db jd now,
        ∃ fl, fl ∈ db.food_listings ∧ r = mkExpiringRow jd now fl
          ∧ jd fl.Expiry_Date - now ≤ 5)
    ∧ (∀ r ∈ query_14_expiring_food db jd now,
        (r.Days_Until_Expiry < 0 → r.Status = "Expired")
        ∧ (0 ≤ r.Days_Until_Expiry → r.Days_Until_Expiry ≤ 1 → r.Status = "Critical")
        ∧ (1 < r.Days_Until_Expiry → r.Days_Until_Expiry ≤ 3 → r.Status = "Warning")
        ∧ (3 < r.Days_Until_Expiry → r.Status = "Safe"))
    ∧ (query_14_expiring_food db jd now).Pairwise
        (fun a b => a.Days_Until_Expiry ≤ b.Days_Until_Expiry)
    ∧ (∀ fl ∈ db.food_listings, jd fl.Expiry_Date + 1 ≤ now →
        mkExpiringRow jd now fl ∈ query_14_expiring_food db jd now
        ∧ (mkExpiringRow jd now fl).Status = "Expired") := by
  refine ⟨?_, ?_, ?_, ?_, ?_⟩
  · intro fl hmem hle
    exact (query_14_mem db jd now _).mpr ⟨fl, hmem, hle, rfl⟩
  · intro r hr
    obtain ⟨fl, hmem, hle, rfl⟩ := (query_14_mem db jd now r).mp hr
    exact ⟨fl, hmem, rfl, hle⟩
  · intro r hr
    obtain ⟨fl, _, hle, rfl⟩ := (query_14_mem db jd now r).mp hr
    exact expiryStatus_spec (jd fl.Expiry_Date - now)
  · have h := List.sorted_mergeSort expiryLe_trans expiryLe_total
      ((db.food_listings.filter (fun fl => decide (jd fl.Expiry_Date - now ≤ 5))).map
        (mkExpiringRow jd now))
    exact h.imp (fun hab => of_decide_eq_true hab)
  · intro fl hmem hyest
    have hneg : jd fl.Expiry_Date - now < 0 := by linarith
    refine ⟨(query_14_mem db jd now _).mpr ⟨fl, hmem, by linarith, rfl⟩, ?_⟩
    exact (expiryStatus_spec (jd fl.Expiry_Date - now)).1 hneg

/-- Witness for C2: a single listing whose expiry julian day is one full day
before the current moment is returned by query 14 and classified Expired. -/
theorem query_14_expiring_food_correct_witness :
    mkExpiringRow (fun _ => 0) 1
        ⟨1, "Rice", 10, "2024-01-01", 1, "Restaurant", "City X", "Vegetarian", "Lunch"⟩
      ∈ query_14_expiring_food
        ⟨[], [], [⟨1, "Rice", 10, "2024-01-01", 1, "Restaurant", "City X", "Vegetarian", "Lunch"⟩], []⟩
        (fun _ => 0) 1
    ∧ (mkExpiringRow (fun _ => 0) 1
        ⟨1, "Rice", 10, "2024-01-01", 1, "Restaurant", "City X", "Vegetarian", "Lunch"⟩).Status
      = "Expired" :=
  (query_14_expiring_food_correct
      ⟨[], [], [⟨1, "Rice", 10, "2024-01-01", 1, "Restaurant", "City X", "Vegetarian", "Lunch"⟩], []⟩
      (fun _ => 0) 1).2.2.2.2
    ⟨1, "Rice", 10, "2024-01-01", 1, "Restaurant", "City X", "Vegetarian", "Lunch"⟩
    (List.mem_singleton.mpr rfl) (by norm_num)

/-- Output row of `query_15_unclaimed_food`. -/
structure UnclaimedRow where
  Food_Name : String
  Quantity : Int
  Expiry_Date : String
  Location : String
  Food_Type : String
  Meal_Type : String
  Provider_Name : String
  Provider_Contact : String
  Days_Until_Expiry : ℚ
deriving DecidableEq, Repr

/-- The SELECT projection of query 15. -/
def mkUnclaimedRow (jd : String → ℚ) (now : ℚ) (fl : FoodListing) (p : Provider) :
    UnclaimedRow :=
  { Food_Name := fl.Food_Name
    Quantity := fl.Quantity
    Expiry_Date := fl.Expiry_Date
    Location := fl.Location
    Food_Type := fl.Food_Type
    Meal_Type := fl.Meal_Type
    Provider_Name := p.Name
    Provider_Contact := p.Contact
    Days_Until_Expiry := jd fl.Expiry_Date - now }

/-- Boolean comparison for `ORDER BY fl.Expiry_Date ASC` (TEXT order). -/
def unclaimedLe (a b : UnclaimedRow) : Bool := sqliteTextLe a.Expiry_Date b.Expiry_Date

/-- The `LEFT JOIN claims ... WHERE c.Food_ID IS NULL` step of query 15: the
listings with no associated claim row. -/
def unclaimedListings (db : DB) : List FoodListing :=
  db.food_listings.filter (fun fl => !(db.claims.any (fun c => c.Food_ID == fl.Food_ID)))

/-- Embedding of `SQLQueries.query_15_unclaimed_food` (`sql_queries.py` lines
264-283): inner-join the listings to `providers` on `Provider_ID`, drop every
listing that has an associated claim row, and order ascending by
`Expiry_Date`. -/
def query_15_unclaimed_food (db : DB) (jd : String → ℚ) (now : ℚ) :
    List UnclaimedRow :=
  ((unclaimedListings db).flatMap (fun fl =>
      (db.providers.filter (fun p => p.Provider_ID == fl.Provider_ID)).map
        (mkUnclaimedRow jd now fl))).mergeSort unclaimedLe

lemma unclaimedLe_trans : ∀ a b c : UnclaimedRow,
    unclaimedLe a b = true → unclaimedLe b c = true → unclaimedLe a c = true := by
  intro a b c hab hbc
  simp only [unclaimedLe, sqliteTextLe, sqliteTextLt, Bool.not_eq_true',
    decide_eq_false_iff_not] at hab hbc ⊢
  exact fun h => hbc (lt_of_lt_of_le h (not_lt.mp hab))

lemma unclaimedLe_total : ∀ a b : UnclaimedRow,
    (unclaimedLe a b || unclaimedLe b a) = true := by
  intro a b
  simp only [unclaimedLe, sqliteTextLe, sqliteTextLt, Bool.or_eq_true,
    Bool.not_eq_true', decide_eq_false_iff_not]
  rcases le_total a.Expiry_Date.data b.Expiry_Date.data with h | h
  · exact Or.inl (not_lt.mpr h)
  · exact Or.inr (not_lt.mpr h)

lemma mem_unclaimedListings (db : DB) (fl : FoodListing) :
    fl ∈ unclaimedListings db ↔
      fl ∈ db.food_listings ∧ ∀ c ∈ db.claims, c.Food_ID ≠ fl.Food_ID := by
  simp [unclaimedListings, List.mem_filter]

lemma query_15_mem (db : DB) (jd : String → ℚ) (now : ℚ) (r : UnclaimedRow) :
    r ∈ query_15_unclaimed_food db jd now ↔
      ∃ fl, (fl ∈ db.food_listings ∧ ∀ c ∈ db.claims, c.Food_ID ≠ fl.Food_ID)
        ∧ ∃ p, p ∈ db.providers ∧ p.Provider_ID = fl.Provider_ID
          ∧ r = mkUnclaimedRow jd now fl p := by
  unfold query_15_unclaimed_food
  rw [(List.mergeSort_perm _ _).mem_iff]
  simp only [List.mem_flatMap, List.mem_map, List.mem_filter, beq_iff_eq,
    mem_unclaimedListings]
  constructor
  · rintro ⟨fl, hfl, p, ⟨hp, hpid⟩, rfl⟩
    exact ⟨fl, hfl, p, hp, hpid, rfl⟩
  · rintro ⟨fl, hfl, p, hp, hpid, rfl⟩
    exact ⟨fl, hfl, p, ⟨hp, hpid⟩, rfl⟩

lemma sum_map_eq_length {α : Type _} {f : α → Nat} :
    ∀ {l : List α}, (∀ x ∈ l, f x = 1) → (l.map f).sum = l.length := by
  intro l
  induction l with
  | nil => intro _; rfl
  | cons x xs ih =>
    intro h
    simp only [List.map_cons, List.sum_cons, List.length_cons,
      h x (List.mem_cons_self x xs), ih (fun y hy => h y (List.mem_cons_of_mem x hy))]
    omega

/-- C1 counterexample: a database with one listing, no claims and an empty
`providers` table. The listing has zero associated Claim rows, yet query 15
returns nothing, because the query inner-joins `providers` and the listing's
`Provider_ID` is dangling. -/
theorem query_15_unclaimed_food_counterexample :
    query_15_unclaimed_food
        ⟨[], [], [⟨1, "Rice", 10, "2099-01-01", 1, "Restaurant", "City X", "Vegetarian", "Lunch"⟩], []⟩
        (fun _ => 0) 0 = []
    ∧ (⟨[], [], [⟨1, "Rice", 10, "2099-01-01", 1, "Restaurant", "City X", "Vegetarian", "Lunch"⟩], []⟩ : DB).claims = []
    ∧ (⟨1, "Rice", 10, "2099-01-01", 1, "Restaurant", "City X", "Vegetarian", "Lunch"⟩ : FoodListing)
        ∈ (⟨[], [], [⟨1, "Rice", 10, "2099-01-01", 1, "Restaurant", "City X", "Vegetarian", "Lunch"⟩], []⟩ : DB).food_listings := by
  refine ⟨?_, rfl, List.mem_singleton.mpr rfl⟩
  simp [query_15_unclaimed_food, unclaimedListings]

/-- C1 (amended): provided every listing's `Provider_ID` matches exactly one
provider row, query 15 returns exactly one row per listing with zero
associated Claim rows (a listing with at least one claim row is excluded
regardless of the claim's Status), each row carrying the matching provider's
name and contact, ordered ascending by `Expiry_Date`. -/
theorem query_15_unclaimed_food_correct (db : DB) (jd : String → ℚ) (now : ℚ)
    (hProv : ∀ fl ∈ db.food_listings,
      (db.providers.filter (fun p => p.Provider_ID == fl.Provider_ID)).length = 1) :
    (query_15_unclaimed_food db jd now).length = (unclaimedListings db).length
    ∧ (∀ fl ∈ db.food_listings, (∀ c ∈ db.claims, c.Food_ID ≠ fl.Food_ID) →
        ∀ p ∈ db.providers, p.Provider_ID = fl.Provider_ID →
          mkUnclaimedRow jd now fl p ∈ query_15_unclaimed_food db jd now)
    ∧ (∀ r ∈ query_15_unclaimed_food db jd now,
        ∃ fl, fl ∈ db.food_listings ∧ (∀ c ∈ db.claims, c.Food_ID ≠ fl.Food_ID)
          ∧ ∃ p, p ∈ db.providers ∧ p.Provider_ID = fl.Provider_ID
            ∧ r = mkUnclaimedRow jd now fl p)
    ∧ (query_15_unclaimed_food db jd now).Pairwise
        (fun a b => ¬ b.Expiry_Date.data < a.Expiry_Date.data) := by
  refine ⟨?_, ?_, ?_, ?_⟩
  · unfold query_15_unclaimed_food
    rw [(List.mergeSort_perm _ _).length_eq, List.length_flatMap]
    apply sum_map_eq_length
    intro fl hfl
    simp only [Function.comp_apply, List.length_map]
    exact hProv fl ((mem_unclaimedListings db fl).mp hfl).1
  · intro fl hfl hnoclaim p hp hpid
    exact (query_15_mem db jd now _).mpr ⟨fl, ⟨hfl, hnoclaim⟩, p, hp, hpid, rfl⟩
  · intro r hr
    obtain ⟨fl, ⟨hfl, hnc⟩, p, hp, hpid, rfl⟩ := (query_15_mem db jd now r).mp hr
    exact ⟨fl, hfl, hnc, p, hp, hpid, rfl⟩
  · have h := List.sorted_mergeSort unclaimedLe_trans unclaimedLe_total
      ((unclaimedListings db).flatMap (fun fl =>
        (db.providers.filter (fun p => p.Provider_ID == fl.Provider_ID)).map
          (mkUnclaimedRow jd now fl)))
    refine h.imp (fun hab => ?_)
    simpa only [unclaimedLe, sqliteTextLe, sqliteTextLt, Bool.not_eq_true',
      decide_eq_false_iff_not] using hab

/-- Witness for the amended C1 at the spec's own scenario fixture: one
provider, one unclaimed listing, no claims. -/
theorem query_15_unclaimed_food_correct_witness :
    (∀ fl ∈ (⟨[⟨1, "A", "Restaurant", "Addr", "City X", "123"⟩], [],
        [⟨1, "Rice", 10, "2099-01-01", 1, "Restaurant", "City X", "Vegetarian", "Lunch"⟩], []⟩ : DB).food_listings,
      ((⟨[⟨1, "A", "Restaurant", "Addr", "City X", "123"⟩], [],
        [⟨1, "Rice", 10, "2099-01-01", 1, "Restaurant", "City X", "Vegetarian", "Lunch"⟩], []⟩ : DB).providers.filter
          (fun p => p.Provider_ID == fl.Provider_ID)).length = 1)
    ∧ (query_15_unclaimed_food
        ⟨[⟨1, "A", "Restaurant", "Addr", "City X", "123"⟩], [],
          [⟨1, "Rice", 10, "2099-01-01", 1, "Restaurant", "City X", "Vegetarian", "Lunch"⟩], []⟩
        (fun _ => 0) 0).length =
      (unclaimedListings
        ⟨[⟨1, "A", "Restaurant", "Addr", "City X", "123"⟩], [],
          [⟨1, "Rice", 10, "2099-01-01", 1, "Restaurant", "City X", "Vegetarian", "Lunch"⟩], []⟩).length :=
  ⟨by decide,
    (query_15_unclaimed_food_correct
      ⟨[⟨1, "A", "Restaurant", "Addr", "City X", "123"⟩], [],
        [⟨1, "Rice", 10, "2099-01-01", 1, "Restaurant", "City X", "Vegetarian", "Lunch"⟩], []⟩
      (fun _ => 0) 0 (by decide)).1⟩

/-- SQLite `ROUND(x, 2)`: round to 2 decimal places (the values rounded by
these queries are nonnegative, where half-away-from-zero and half-up agree). -/
def round2 (q : ℚ) : ℚ := ((round (q * 100) : ℤ) : ℚ) / 100

/-- Output row of `query_10_claim_status_distribution`. -/
structure StatusRow where
  Status : String
  Count : Nat
  Percentage : ℚ
deriving DecidableEq, Repr

/-- The SELECT projection of query 10 for one status group. -/
def mkStatusRow (db : DB) (s : String) : StatusRow :=
  { Status := s
    Count := db.claims.countP (fun c => c.Status == s)
    Percentage :=
      round2 ((db.claims.countP (fun c => c.Status == s) : ℚ) * 100 / (db.claims.length : ℚ)) }

/-- Boolean comparison for `ORDER BY Count DESC`. -/
def statusCountGe (a b : StatusRow) : Bool := decide (b.Count ≤ a.Count)

/-- Embedding of `SQLQueries.query_10_claim_status_distribution`
(`sql_queries.py` lines 166-177): group the claims by `Status`, count each
group, compute its percentage of all claims rounded to 2 decimals, and order
descending by count. -/
def query_10_claim_status_distribution (db : DB) : List StatusRow :=
  ((db.claims.map (fun c => c.Status)).dedup.map (mkStatusRow db)).mergeSort statusCountGe

lemma statusCountGe_trans : ∀ a b c : StatusRow,
    statusCountGe a b = true → statusCountGe b c = true → statusCountGe a c = true := by
  intro a b c hab hbc
  exact decide_eq_true (le_trans (of_decide_eq_true hbc) (of_decide_eq_true hab))

lemma statusCountGe_total : ∀ a b : StatusRow,
    (statusCountGe a b || statusCountGe b a) = true := by
  intro a b
  simp only [statusCountGe, Bool.or_eq_true, decide_eq_true_iff]
  exact (le_total b.Count a.Count)

lemma abs_round2_sub (x : ℚ) : |round2 x - x| ≤ 1 / 200 := by
  have h := abs_sub_round (x * 100)
  rw [abs_sub_comm] at h
  have : round2 x - x = (((round (x * 100) : ℤ) : ℚ) - x * 100) / 100 := by
    rw [round2]
    ring
  rw [this, abs_div]
  rw [show |(100 : ℚ)| = 100 by norm_num]
  linarith

lemma sum_map_mul_const {α : Type _} (l : List α) (f : α → ℚ) (k : ℚ) :
    (l.map (fun x => f x * k)).sum = (l.map f).sum * k := by
  induction l with
  | nil => simp
  | cons x xs ih => simp [ih, add_mul]

lemma abs_sum_map_sub_le {α : Type _} (f g : α → ℚ) :
    ∀ (l : List α), (∀ x ∈ l, |f x - g x| ≤ 1 / 200) →
      |(l.map f).sum - (l.map g).sum| ≤ (l.length : ℚ) / 200 := by
  intro l
  induction l with
  | nil => intro _; simp
  | cons x xs ih =>
    intro h
    have h1 := h x (List.mem_cons_self x xs)
    have h2 := ih (fun y hy => h y (List.mem_cons_of_mem x hy))
    simp only [List.map_cons, List.sum_cons, List.length_cons]
    have key : f x + (xs.map f).sum - (g x + (xs.map g).sum)
        = (f x - g x) + ((xs.map f).sum - (xs.map g).sum) := by ring
    rw [key]
    calc |(f x - g x) + ((xs.map f).sum - (xs.map g).sum)|
        ≤ |f x - g x| + |(xs.map f).sum - (xs.map g).sum| := abs_add _ _
      _ ≤ 1 / 200 + (xs.length : ℚ) / 200 := add_le_add h1 h2
      _ = ((xs.length : ℚ) + 1) / 200 := by ring
      _ = ((xs.length + 1 : ℕ) : ℚ) / 200 := by push_cast; ring

lemma sum_dedup_countP (db : DB) :
    ((db.claims.map (fun c => c.Status)).dedup.map
        (fun s => db.claims.countP (fun c => c.Status == s))).sum
      = db.claims.length := by
  have hcnt : ∀ s : String,
      db.claims.countP (fun c => c.Status == s)
        = (db.claims.map (fun c => c.Status)).count s := by
    intro s
    rw [List.count, List.countP_map]
    rfl
  calc ((db.claims.map (fun c => c.Status)).dedup.map
          (fun s => db.claims.countP (fun c => c.Status == s))).sum
      = ((db.claims.map (fun c => c.Status)).dedup.map
          (fun s => (db.claims.map (fun c => c.Status)).count s)).sum := by
        exact congrArg List.sum (List.map_congr_left (fun s _ => hcnt s))
    _ = (db.claims.map (fun c => c.Status)).length :=
        List.sum_map_count_dedup_eq_length _
    _ = db.claims.length := List.length_map _ _

/-- C6: with at least one claim row, query 10 returns one row per distinct
Status value, each carrying the exact count of claims with that status and
that count's percentage of all claims rounded to 2 decimals, ordered
descending by count; and the returned percentages sum to 100 up to the
accumulated rounding error (at most 1/200 per returned row). -/
theorem query_10_claim_status_distribution_correct (db : DB)
    (hne : db.claims ≠ []) :
    (query_10_claim_status_distribution db).length
        = (db.claims.map (fun c => c.Status)).dedup.length
    ∧ (∀ s ∈ (db.claims.map (fun c => c.Status)).dedup,
        mkStatusRow db s ∈ query_10_claim_status_distribution db)
    ∧ (∀ r ∈ query_10_claim_status_distribution db,
        r.Status ∈ db.claims.map (fun c => c.Status)
        ∧ r.Count = db.claims.countP (fun c => c.Status == r.Status)
        ∧ r.Percentage = round2 ((r.Count : ℚ) * 100 / (db.claims.length : ℚ)))
    ∧ (query_10_claim_status_distribution db).Pairwise (fun a b => b.Count ≤ a.Count)
    ∧ |((query_10_claim_status_distribution db).map (fun r => r.Percentage)).sum - 100|
        ≤ ((query_10_claim_status_distribution db).length : ℚ) / 200 := by
  have hperm : (query_10_claim_status_distribution db).Perm
      ((db.claims.map (fun c => c.Status)).dedup.map (mkStatusRow db)) :=
    List.mergeSort_perm _ _
  have htot : (db.claims.length : ℚ) ≠ 0 := by
    have h0 := List.length_pos.mpr hne
    exact Nat.cast_ne_zero.mpr (by omega)
  refine ⟨?_, ?_, ?_, ?_, ?_⟩
  · rw [hperm.length_eq, List.length_map]
  · intro s hs
    exact hperm.mem_iff.mpr (List.mem_map_of_mem _ hs)
  · intro r hr
    obtain ⟨s, hs, rfl⟩ := List.mem_map.mp (hperm.mem_iff.mp hr)
    exact ⟨List.mem_dedup.mp hs, rfl, rfl⟩
  · have h := List.sorted_mergeSort statusCountGe_trans statusCountGe_total
      ((db.claims.map (fun c => c.Status)).dedup.map (mkStatusRow db))
    exact h.imp (fun hab => of_decide_eq_true hab)
  · have hsum_eq : ((query_10_claim_status_distribution db).map (fun r => r.Percentage)).sum
        = (((db.claims.map (fun c => c.Status)).dedup.map (mkStatusRow db)).map
            (fun r => r.Percentage)).sum :=
      (hperm.map _).sum_eq
    have hlen_eq : (query_10_claim_status_distribution db).length
        = (db.claims.map (fun c => c.Status)).dedup.length := by
      rw [hperm.length_eq, List.length_map]
    rw [hsum_eq, hlen_eq, List.map_map]
    set l := (db.claims.map (fun c => c.Status)).dedup with hl
    have hcomp : ((fun r : StatusRow => r.Percentage) ∘ mkStatusRow db)
        = fun s => round2 ((db.claims.countP (fun c => c.Status == s) : ℚ) * 100
            / (db.claims.length : ℚ)) := rfl
    rw [hcomp]
    have hg : (l.map (fun s => (db.claims.countP (fun c => c.Status == s) : ℚ) * 100
        / (db.claims.length : ℚ))).sum = 100 := by
      have hfactor : (fun s => (db.claims.countP (fun c => c.Status == s) : ℚ) * 100
          / (db.claims.length : ℚ))
          = fun s => (db.claims.countP (fun c => c.Status == s) : ℚ)
              * (100 / (db.claims.length : ℚ)) := by
        funext s
        ring
      rw [hfactor, sum_map_mul_const]
      have hcast : (l.map (fun s => (db.claims.countP (fun c => c.Status == s) : ℚ))).sum
          = ((l.map (fun s => db.claims.countP (fun c => c.Status == s))).sum : ℚ) := by
        rw [Nat.cast_list_sum, List.map_map]
        rfl
      rw [hcast, hl, sum_dedup_countP db]
      field_simp
    have hbound := abs_sum_map_sub_le
      (fun s => round2 ((db.claims.countP (fun c => c.Status == s) : ℚ) * 100
        / (db.claims.length : ℚ)))
      (fun s => (db.claims.countP (fun c => c.Status == s) : ℚ) * 100
        / (db.claims.length : ℚ))
      l (fun s _ => abs_round2_sub _)
    rw [hg] at hbound
    exact hbound

/-- Witness for C6 at a two-status fixture. -/
theorem query_10_claim_status_distribution_correct_witness :
    ((⟨[], [], [], [⟨1, 1, 1, "Completed", "t1"⟩, ⟨2, 1, 1, "Pending", "t2"⟩]⟩ : DB).claims ≠ [])
    ∧ |((query_10_claim_status_distribution
          ⟨[], [], [], [⟨1, 1, 1, "Completed", "t1"⟩, ⟨2, 1, 1, "Pending", "t2"⟩]⟩).map
          (fun r => r.Percentage)).sum - 100|
        ≤ ((query_10_claim_status_distribution
            ⟨[], [], [], [⟨1, 1, 1, "Completed", "t1"⟩, ⟨2, 1, 1, "Pending", "t2"⟩]⟩).length : ℚ) / 200 :=
  ⟨by simp,
    (query_10_claim_status_distribution_correct
      ⟨[], [], [], [⟨1, 1, 1, "Completed", "t1"⟩, ⟨2, 1, 1, "Pending", "t2"⟩]⟩
      (by simp)).2.2.2.2⟩

/-- Output row of `query_9_successful_providers`. -/
structure ProviderSuccessRow where
  Name : String
  «Type» : String
  City : String
  Total_Claims : Nat
  Successful_Claims : Nat
  Success_Rate_Percent : Option ℚ
deriving DecidableEq, Repr

/-- The join rows of query 9 contributed by one provider: its listings
(`ON p.Provider_ID = fl.Provider_ID`) paired with each listing's claims
(`ON fl.Food_ID = c.Food_ID`; the `WHERE c.Claim_ID IS NOT NULL` clause turns
the left join into an inner join). -/
def q9Block (db : DB) (p : Provider) : List (Provider × FoodListing × Claim) :=
  (db.food_listings.filter (fun fl => fl.Provider_ID == p.Provider_ID)).flatMap (fun fl =>
    (db.claims.filter (fun c => fl.Food_ID == c.Food_ID)).map (fun c => (p, fl, c)))

/-- All join rows of query 9. -/
def q9JoinRows (db : DB) : List (Provider × FoodListing × Claim) :=
  db.providers.flatMap (q9Block db)

/-- The GROUP BY key of query 9: `p.Provider_ID, p.Name, p.Type, p.City`. -/
def q9Key (p : Provider) : Nat × String × String × String :=
  (p.Provider_ID, p.Name, p.«Type», p.City)

/-- The SELECT projection of query 9 for one group: total claims, Completed
claims, and `ROUND(succ * 100.0 / NULLIF(total, 0), 2)`. -/
def q9GroupRow (db : DB) (key : Nat × String × String × String) : ProviderSuccessRow :=
  let g := (q9JoinRows db).filter (fun t => decide (q9Key t.1 = key))
  { Name := key.2.1
    «Type» := key.2.2.1
    City := key.2.2.2
    Total_Claims := g.length
    Successful_Claims := g.countP (fun t => t.2.2.Status == "Completed")
    Success_Rate_Percent :=
      if g.length = 0 then none
      else some (round2
        ((g.countP (fun t => t.2.2.Status == "Completed") : ℚ) * 100 / (g.length : ℚ))) }

/-- Boolean comparison for `ORDER BY Successful_Claims DESC`. -/
def q9Ge (a b : ProviderSuccessRow) : Bool :=
  decide (b.Successful_Claims ≤ a.Successful_Claims)

/-- Embedding of `SQLQueries.query_9_successful_providers` (`sql_queries.py`
lines 144-164): inner-join providers to their listings, join the claims on the
listings, group by provider, and order descending by Completed-claim count. -/
def query_9_successful_providers (db : DB) : List ProviderSuccessRow :=
  (((q9JoinRows db).map (fun t => q9Key t.1)).dedup.map (q9GroupRow db)).mergeSort q9Ge

/-- The claims made against any of one provider's listings — the reference
count the spec describes for query 9. -/
def providerClaims (db : DB) (p : Provider) : List Claim :=
  db.claims.filter (fun c =>
    db.food_listings.any (fun fl => fl.Food_ID == c.Food_ID && fl.Provider_ID == p.Provider_ID))

/-- What the spec says a provider's row of query 9 holds. -/
def q9ExpectedRow (db : DB) (p : Provider) : ProviderSuccessRow :=
  { Name := p.Name
    «Type» := p.«Type»
    City := p.City
    Total_Claims := (providerClaims db p).length
    Successful_Claims := (providerClaims db p).countP (fun c => c.Status == "Completed")
    Success_Rate_Percent := some (round2
      (((providerClaims db p).countP (fun c => c.Status == "Completed") : ℚ) * 100
        / ((providerClaims db p).length : ℚ))) }

lemma q9Ge_trans : ∀ a b c : ProviderSuccessRow,
    q9Ge a b = true → q9Ge b c = true → q9Ge a c = true := by
  intro a b c hab hbc
  exact decide_eq_true (le_trans (of_decide_eq_true hbc) (of_decide_eq_true hab))

lemma q9Ge_total : ∀ a b : ProviderSuccessRow, (q9Ge a b || q9Ge b a) = true := by
  intro a b
  simp only [q9Ge, Bool.or_eq_true, decide_eq_true_iff]
  exact le_total b.Successful_Claims a.Successful_Claims

lemma sum_map_add_nat {α : Type _} (l : List α) (f g : α → Nat) :
    (l.map (fun x => f x + g x)).sum = (l.map f).sum + (l.map g).sum := by
  induction l with
  | nil => rfl
  | cons x xs ih =>
    simp only [List.map_cons, List.sum_cons, ih]
    omega

lemma sum_map_indicator {α : Type _} (l : List α) (P : α → Bool) :
    (l.map (fun x => if P x then 1 else 0)).sum = l.countP P := by
  induction l with
  | nil => rfl
  | cons x xs ih =>
    cases h : P x
    · simp [List.countP_cons, h, ih]
    · simp only [List.map_cons, List.sum_cons, List.countP_cons, h, if_true, ih]
      omega

lemma countP_flatMap {α β : Type _} (p : β → Bool) (f : α → List β) :
    ∀ l : List α, (l.flatMap f).countP p = (l.map (fun a => (f a).countP p)).sum := by
  intro l
  induction l with
  | nil => rfl
  | cons x xs ih =>
    simp only [List.flatMap_cons, List.countP_append, List.map_cons, List.sum_cons, ih]

lemma countP_beq_of_nodup {fls : List FoodListing}
    (h : (fls.map (fun fl => fl.Food_ID)).Nodup) (x : Nat) :
    fls.countP (fun fl => fl.Food_ID == x)
      = if fls.any (fun fl => fl.Food_ID == x) then 1 else 0 := by
  induction fls with
  | nil => rfl
  | cons fl fls ih =>
    simp only [List.map_cons, List.nodup_cons] at h
    cases hm : (fl.Food_ID == x)
    · simp only [List.countP_cons, hm, List.any_cons]
      simp only [Bool.false_eq_true, if_false, Bool.false_or]
      rw [ih h.2]
      omega
    · have hx : fl.Food_ID = x := beq_iff_eq.mp hm
      have hcnt : fls.countP (fun fl' => fl'.Food_ID == x) = 0 := by
        apply List.countP_eq_zero.mpr
        intro fl' hfl' hbeq
        have hx' : fl'.Food_ID = x := beq_iff_eq.mp hbeq
        have hxmem : fl.Food_ID ∈ List.map (fun fl => fl.Food_ID) fls := by
          rw [hx, ← hx']
          exact List.mem_map_of_mem _ hfl'
        exact h.1 hxmem
      simp only [List.countP_cons, hm, List.any_cons, hcnt, Bool.true_or, if_true]

lemma swap_count (fls : List FoodListing)
    (hN : (fls.map (fun fl => fl.Food_ID)).Nodup) (q : Claim → Bool) :
    ∀ cs : List Claim,
      (fls.map (fun fl => cs.countP (fun c => q c && (fl.Food_ID == c.Food_ID)))).sum
        = cs.countP (fun c => q c && fls.any (fun fl => fl.Food_ID == c.Food_ID)) := by
  intro cs
  induction cs with
  | nil =>
    simp [List.countP_nil]
  | cons c cs ih =>
    have hsplit : (fls.map (fun fl =>
        (c :: cs).countP (fun c' => q c' && (fl.Food_ID == c'.Food_ID)))).sum
        = (fls.map (fun fl => cs.countP (fun c' => q c' && (fl.Food_ID == c'.Food_ID)))).sum
          + (fls.map (fun fl => if q c && (fl.Food_ID == c.Food_ID) then 1 else 0)).sum := by
      rw [← sum_map_add_nat]
      apply congrArg List.sum
      apply List.map_congr_left
      intro fl _
      rw [List.countP_cons]
    rw [hsplit, ih, List.countP_cons]
    apply congrArg
    cases hq : q c
    · simp
    · simp only [Bool.true_and]
      rw [sum_map_indicator, countP_beq_of_nodup hN]

lemma any_filter_and {α : Type _} (p q : α → Bool) :
    ∀ l : List α, (l.filter q).any p = l.any (fun a => p a && q a) := by
  intro l
  induction l with
  | nil => rfl
  | cons x xs ih =>
    cases hq : q x
    · rw [List.filter_cons_of_neg (by rw [hq]; exact Bool.false_ne_true), List.any_cons, ih]
      cases hp : p x <;> simp [hq]
    · rw [List.filter_cons_of_pos hq, List.any_cons, List.any_cons, ih, hq]
      cases hp : p x <;> simp

lemma q9Block_fst (db : DB) (p : Provider) : ∀ t ∈ q9Block db p, t.1 = p := by
  intro t ht
  simp only [q9Block, List.mem_flatMap, List.mem_map] at ht
  obtain ⟨fl, _, c, _, rfl⟩ := ht
  rfl

lemma q9Block_countP (db : DB) (p : Provider)
    (hFid : (db.food_listings.map (fun fl => fl.Food_ID)).Nodup) (q : Claim → Bool) :
    (q9Block db p).countP (fun t => q t.2.2) = (providerClaims db p).countP q := by
  have hsub : ((db.food_listings.filter
      (fun fl => fl.Provider_ID == p.Provider_ID)).map (fun fl => fl.Food_ID)).Nodup :=
    ((List.filter_sublist _).map _).nodup hFid
  rw [q9Block, countP_flatMap]
  have hinner : ∀ fl ∈ db.food_listings.filter (fun fl => fl.Provider_ID == p.Provider_ID),
      (fun fl => ((db.claims.filter (fun c => fl.Food_ID == c.Food_ID)).map
          (fun c => (p, fl, c))).countP (fun t => q t.2.2)) fl
        = (fun fl => db.claims.countP (fun c => q c && (fl.Food_ID == c.Food_ID))) fl := by
    intro fl _
    simp only []
    rw [List.countP_map, List.countP_filter]
    rfl
  rw [List.map_congr_left hinner, swap_count _ hsub q db.claims, providerClaims,
    List.countP_filter]
  apply List.countP_congr
  intro c _
  rw [← any_filter_and (fun fl => fl.Food_ID == c.Food_ID)
    (fun fl => fl.Provider_ID == p.Provider_ID) db.food_listings]

lemma q9Block_length (db : DB) (p : Provider)
    (hFid : (db.food_listings.map (fun fl => fl.Food_ID)).Nodup) :
    (q9Block db p).length = (providerClaims db p).length := by
  have h := q9Block_countP db p hFid (fun _ => true)
  simpa using h

lemma q9Block_keys (db : DB) (p : Provider) :
    (q9Block db p).map (fun t => q9Key t.1)
      = List.replicate (q9Block db p).length (q9Key p) := by
  have h : ∀ x ∈ (q9Block db p).map (fun t => q9Key t.1), x = q9Key p := by
    intro x hx
    obtain ⟨t, ht, rfl⟩ := List.mem_map.mp hx
    rw [q9Block_fst db p t ht]
  have := List.eq_replicate_of_mem h
  rwa [List.length_map] at this

lemma q9JoinRows_keys (db : DB) :
    (q9JoinRows db).map (fun t => q9Key t.1)
      = db.providers.flatMap (fun p => List.replicate (q9Block db p).length (q9Key p)) := by
  rw [q9JoinRows, List.map_flatMap]
  exact congrArg (fun f => db.providers.flatMap f) (funext (fun p => q9Block_keys db p))

lemma dedup_replicate_append {β : Type _} [DecidableEq β] {a : β} {l : List β}
    (ha : a ∉ l) : ∀ m : Nat, 0 < m → (List.replicate m a ++ l).dedup = a :: l.dedup := by
  intro m
  induction m with
  | zero => intro h; exact absurd h (Nat.lt_irrefl 0)
  | succ m ihm =>
    intro _
    rcases Nat.eq_zero_or_pos m with h0 | hpos
    · subst h0
      rw [List.replicate_succ, List.replicate_zero, List.singleton_append]
      exact List.dedup_cons_of_not_mem ha
    · rw [List.replicate_succ, List.cons_append, List.dedup_cons_of_mem]
      · exact ihm hpos
      · exact List.mem_append.mpr (Or.inl (List.mem_replicate.mpr ⟨by omega, rfl⟩))

lemma mem_flatMap_replicate {α β : Type _} (k : α → β) (n : α → Nat) (ps : List α)
    (x : β) (hx : x ∈ ps.flatMap (fun p => List.replicate (n p) (k p))) :
    ∃ q ∈ ps, x = k q := by
  obtain ⟨q, hq, hmem⟩ := List.mem_flatMap.mp hx
  exact ⟨q, hq, List.eq_of_mem_replicate hmem⟩

lemma dedup_flatMap_replicate {α β : Type _} [DecidableEq β] (k : α → β) (n : α → Nat) :
    ∀ ps : List α, (ps.map k).Nodup →
      (ps.flatMap (fun p => List.replicate (n p) (k p))).dedup
        = (ps.filter (fun p => decide (n p ≠ 0))).map k := by
  intro ps
  induction ps with
  | nil => intro _; rfl
  | cons p ps ih =>
    intro hN
    simp only [List.map_cons, List.nodup_cons] at hN
    rw [List.flatMap_cons]
    rcases Nat.eq_zero_or_pos (n p) with h0 | hpos
    · rw [h0, List.replicate_zero, List.nil_append, ih hN.2,
        List.filter_cons_of_neg (by simp [h0])]
    · have hknotin : k p ∉ ps.flatMap (fun q => List.replicate (n q) (k q)) := by
        intro hmem
        obtain ⟨q, hq, heq⟩ := mem_flatMap_replicate k n ps (k p) hmem
        exact hN.1 (heq ▸ List.mem_map_of_mem k hq)
      rw [dedup_replicate_append hknotin (n p) hpos, ih hN.2,
        List.filter_cons_of_pos (by simp; omega), List.map_cons]

lemma filter_flatMap_key {α β γ : Type _} [DecidableEq β] (k : α → β)
    (block : α → List γ) (key : γ → β)
    (hblock : ∀ q, ∀ t ∈ block q, key t = k q) :
    ∀ (ps : List α) (p : α), (ps.map k).Nodup → p ∈ ps →
      (ps.flatMap block).filter (fun t => decide (key t = k p)) = block p := by
  intro ps
  induction ps with
  | nil => intro p _ hp; cases hp
  | cons q ps ih =>
    intro p hN hp
    simp only [List.map_cons, List.nodup_cons] at hN
    rw [List.flatMap_cons, List.filter_append]
    rcases List.mem_cons.mp hp with rfl | hp'
    · have h1 : (block p).filter (fun t => decide (key t = k p)) = block p :=
        List.filter_eq_self.mpr (fun t ht => decide_eq_true (hblock p t ht))
      have h2 : (ps.flatMap block).filter (fun t => decide (key t = k p)) = [] := by
        apply List.filter_eq_nil_iff.mpr
        intro t ht
        obtain ⟨q', hq', ht'⟩ := List.mem_flatMap.mp ht
        rw [hblock q' t ht']
        simp only [decide_eq_true_eq]
        intro heq
        exact hN.1 (heq ▸ List.mem_map_of_mem k hq')
      rw [h1, h2, List.append_nil]
    · have h1 : (block q).filter (fun t => decide (key t = k p)) = [] := by
        apply List.filter_eq_nil_iff.mpr
        intro t ht
        rw [hblock q t ht]
        simp only [decide_eq_true_eq]
        intro heq
        exact hN.1 (heq ▸ List.mem_map_of_mem k hp')
      rw [h1, List.nil_append]
      exact ih p hN.2 hp'

/-- C4: with unique provider and food ids, query 9 returns one row per
provider that has at least one claim against any of its listings (providers
with zero such claims are excluded), each row carrying the exact total claim
count, the count of claims with Status exactly Completed, and
`successful / total * 100` rounded to 2 decimals with the zero-denominator
guard, ordered descending by the Completed-claim count. -/
theorem query_9_successful_providers_correct (db : DB)
    (hPid : (db.providers.map (fun p => p.Provider_ID)).Nodup)
    (hFid : (db.food_listings.map (fun fl => fl.Food_ID)).Nodup) :
    (query_9_successful_providers db).length
        = (db.providers.filter (fun p => decide (providerClaims db p ≠ []))).length
    ∧ (∀ p ∈ db.providers, providerClaims db p ≠ [] →
        q9ExpectedRow db p ∈ query_9_successful_providers db)
    ∧ (∀ r ∈ query_9_successful_providers db,
        ∃ p, p ∈ db.providers ∧ providerClaims db p ≠ [] ∧ r = q9ExpectedRow db p)
    ∧ (query_9_successful_providers db).Pairwise
        (fun a b => b.Successful_Claims ≤ a.Successful_Claims) := by
  have hKeyN : (db.providers.map q9Key).Nodup := by
    apply List.Nodup.of_map Prod.fst
    rw [List.map_map]
    exact hPid
  have hdedup : ((q9JoinRows db).map (fun t => q9Key t.1)).dedup
      = (db.providers.filter
          (fun p => decide ((q9Block db p).length ≠ 0))).map q9Key := by
    rw [q9JoinRows_keys,
      dedup_flatMap_replicate q9Key (fun p => (q9Block db p).length) db.providers hKeyN]
  have hfiltereq : db.providers.filter (fun p => decide ((q9Block db p).length ≠ 0))
      = db.providers.filter (fun p => decide (providerClaims db p ≠ [])) := by
    apply List.filter_congr
    intro p _
    rw [decide_eq_decide, q9Block_length db p hFid]
    exact not_congr List.length_eq_zero
  have hperm : (query_9_successful_providers db).Perm
      (((q9JoinRows db).map (fun t => q9Key t.1)).dedup.map (q9GroupRow db)) :=
    List.mergeSort_perm _ _
  have hgrow : ∀ p ∈ db.providers, providerClaims db p ≠ [] →
      q9GroupRow db (q9Key p) = q9ExpectedRow db p := by
    intro p hp hne
    have hfilter : (q9JoinRows db).filter (fun t => decide (q9Key t.1 = q9Key p))
        = q9Block db p :=
      filter_flatMap_key q9Key (q9Block db) (fun t => q9Key t.1)
        (fun q t ht => congrArg q9Key (q9Block_fst db q t ht)) db.providers p hKeyN hp
    have hlen : (q9Block db p).length = (providerClaims db p).length :=
      q9Block_length db p hFid
    have hcnt := q9Block_countP db p hFid (fun c => c.Status == "Completed")
    have hlen0 : (providerClaims db p).length ≠ 0 :=
      fun h => hne (List.length_eq_zero.mp h)
    simp only [q9GroupRow, q9ExpectedRow]
    rw [hfilter, hlen, hcnt, if_neg hlen0]
    rfl
  refine ⟨?_, ?_, ?_, ?_⟩
  · rw [hperm.length_eq, List.length_map, hdedup, hfiltereq, List.length_map]
  · intro p hp hne
    have hkmem : q9Key p ∈ ((q9JoinRows db).map (fun t => q9Key t.1)).dedup := by
      rw [hdedup, hfiltereq]
      exact List.mem_map_of_mem _ (List.mem_filter.mpr ⟨hp, decide_eq_true hne⟩)
    have := List.mem_map_of_mem (q9GroupRow db) hkmem
    rw [hgrow p hp hne] at this
    exact hperm.mem_iff.mpr this
  · intro r hr
    have hr' := hperm.mem_iff.mp hr
    obtain ⟨s, hs, rfl⟩ := List.mem_map.mp hr'
    rw [hdedup, hfiltereq] at hs
    obtain ⟨p, hpf, rfl⟩ := List.mem_map.mp hs
    obtain ⟨hp, hnedec⟩ := List.mem_filter.mp hpf
    have hne : providerClaims db p ≠ [] := of_decide_eq_true hnedec
    exact ⟨p, hp, hne, hgrow p hp hne⟩
  · have h := List.sorted_mergeSort q9Ge_trans q9Ge_total
      (((q9JoinRows db).map (fun t => q9Key t.1)).dedup.map (q9GroupRow db))
    exact h.imp (fun hab => of_decide_eq_true hab)

/-- Witness for C4: one provider with one listing carrying one Completed
claim appears in query 9's output with its exact counts. -/
theorem query_9_successful_providers_correct_witness :
    q9ExpectedRow
        ⟨[⟨1, "A", "Restaurant", "Addr", "City X", "123"⟩], [],
          [⟨1, "Rice", 10, "2099-01-01", 1, "Restaurant", "City X", "Vegetarian", "Lunch"⟩],
          [⟨1, 1, 1, "Completed", "t1"⟩]⟩
        ⟨1, "A", "Restaurant", "Addr", "City X", "123"⟩
      ∈ query_9_successful_providers
        ⟨[⟨1, "A", "Restaurant", "Addr", "City X", "123"⟩], [],
          [⟨1, "Rice", 10, "2099-01-01", 1, "Restaurant", "City X", "Vegetarian", "Lunch"⟩],
          [⟨1, 1, 1, "Completed", "t1"⟩]⟩ :=
  (query_9_successful_providers_correct
      ⟨[⟨1, "A", "Restaurant", "Addr", "City X", "123"⟩], [],
        [⟨1, "Rice", 10, "2099-01-01", 1, "Restaurant", "City X", "Vegetarian", "Lunch"⟩],
        [⟨1, 1, 1, "Completed", "t1"⟩]⟩
      (by decide) (by decide)).2.1
    ⟨1, "A", "Restaurant", "Addr", "City X", "123"⟩
    (List.mem_singleton.mpr rfl) (by decide)

/-- Output row of `query_13_provider_donations`. `Total_Quantity_Listed` and
`Donation_Rate_Percent` are nullable (SUM over no rows, NULLIF guard). -/
structure ProviderDonationRow where
  Name : String
  «Type» : String
  City : String
  Items_Listed : Nat
  Total_Quantity_Listed : Option Int
  Quantity_Donated : Int
  Donation_Rate_Percent : Option ℚ
deriving DecidableEq, Repr

/-- The join rows of query 13 contributed by one provider, with both LEFT
JOINs null-extended: `none` when the provider has no listings, and
`some (fl, none)` when a listing has no claims. -/
def q13Block (db : DB) (p : Provider) : List (Option (FoodListing × Option Claim)) :=
  let fls := db.food_listings.filter (fun fl => fl.Provider_ID == p.Provider_ID)
  if fls.isEmpty then [none]
  else fls.flatMap (fun fl =>
    let cls := db.claims.filter (fun c => fl.Food_ID == c.Food_ID)
    if cls.isEmpty then [some (fl, none)]
    else cls.map (fun c => some (fl, some c)))

/-- All join rows of query 13, tagged with their provider. -/
def q13JoinRows (db : DB) : List (Provider × Option (FoodListing × Option Claim)) :=
  db.providers.flatMap (fun p => (q13Block db p).map (fun r => (p, r)))

/-- The SELECT projection of query 13 for one group:
`COUNT(fl.Food_ID)`, `SUM(fl.Quantity)`,
`SUM(CASE WHEN c.Status = 'Completed' THEN fl.Quantity ELSE 0 END)` and
`ROUND(donated * 100.0 / NULLIF(SUM(fl.Quantity), 0), 2)`. -/
def q13GroupRow (db : DB) (key : Nat × String × String × String) :
    ProviderDonationRow :=
  let g := (q13JoinRows db).filter (fun t => decide (q9Key t.1 = key))
  let rows := g.map (fun t => t.2)
  let present := rows.filterMap id
  let listedSum : Int := (present.map (fun x => x.1.Quantity)).sum
  let donated : Int := (rows.map (fun r =>
      match r with
      | some (fl, some c) => if c.Status == "Completed" then fl.Quantity else 0
      | _ => 0)).sum
  { Name := key.2.1
    «Type» := key.2.2.1
    City := key.2.2.2
    Items_Listed := rows.countP (fun r => r.isSome)
    Total_Quantity_Listed := if present.isEmpty then none else some listedSum
    Quantity_Donated := donated
    Donation_Rate_Percent :=
      if present.isEmpty then none
      else if listedSum = 0 then none
      else some (round2 ((donated : ℚ) * 100 / (listedSum : ℚ))) }

/-- Boolean comparison for `ORDER BY Quantity_Donated DESC`. -/
def q13Ge (a b : ProviderDonationRow) : Bool :=
  decide (b.Quantity_Donated ≤ a.Quantity_Donated)

/-- Embedding of `SQLQueries.query_13_provider_donations` (`sql_queries.py`
lines 219-239): LEFT JOIN providers to listings to claims, group by provider,
aggregate, order descending by quantity donated. -/
def query_13_provider_donations (db : DB) : List ProviderDonationRow :=
  (((q13JoinRows db).map (fun t => q9Key t.1)).dedup.map (q13GroupRow db)).mergeSort q13Ge

/-- C5: fan-out bug of query 13. With one provider owning a single listing of
quantity 10 that carries two claims, the join duplicates the listing once per
claim, so the reported `Items_Listed` is 2 (not the provider's 1 listing) and
`Total_Quantity_Listed` is 20 (not 10): the code disagrees with the spec's
`items listed` / `quantity listed` reading on this input. -/
theorem query_13_provider_donations_fanout_bug :
    (query_13_provider_donations
        ⟨[⟨1, "A", "Restaurant", "Addr", "City X", "123"⟩], [],
          [⟨1, "Rice", 10, "2099-01-01", 1, "Restaurant", "City X", "Vegetarian", "Lunch"⟩],
          [⟨1, 1, 1, "Completed", "t1"⟩, ⟨2, 1, 1, "Pending", "t2"⟩]⟩).map
        (fun r => (r.Items_Listed, r.Total_Quantity_Listed, r.Quantity_Donated))
      = [(2, some 20, 10)]
    ∧ (⟨[⟨1, "A", "Restaurant", "Addr", "City X", "123"⟩], [],
          [⟨1, "Rice", 10, "2099-01-01", 1, "Restaurant", "City X", "Vegetarian", "Lunch"⟩],
          [⟨1, 1, 1, "Completed", "t1"⟩, ⟨2, 1, 1, "Pending", "t2"⟩]⟩ : DB).food_listings.length
        = 1
    ∧ ((⟨[⟨1, "A", "Restaurant", "Addr", "City X", "123"⟩], [],
          [⟨1, "Rice", 10, "2099-01-01", 1, "Restaurant", "City X", "Vegetarian", "Lunch"⟩],
          [⟨1, 1, 1, "Completed", "t1"⟩, ⟨2, 1, 1, "Pending", "t2"⟩]⟩ : DB).food_listings.map
          (fun fl => fl.Quantity)).sum = 10 := by
  refine ⟨?_, rfl, rfl⟩
  apply List.perm_singleton.mp
  have hperm := (List.mergeSort_perm
    (((q13JoinRows
        ⟨[⟨1, "A", "Restaurant", "Addr", "City X", "123"⟩], [],
          [⟨1, "Rice", 10, "2099-01-01", 1, "Restaurant", "City X", "Vegetarian", "Lunch"⟩],
          [⟨1, 1, 1, "Completed", "t1"⟩, ⟨2, 1, 1, "Pending", "t2"⟩]⟩).map
        (fun t => q9Key t.1)).dedup.map (q13GroupRow
        ⟨[⟨1, "A", "Restaurant", "Addr", "City X", "123"⟩], [],
          [⟨1, "Rice", 10, "2099-01-01", 1, "Restaurant", "City X", "Vegetarian", "Lunch"⟩],
          [⟨1, 1, 1, "Completed", "t1"⟩, ⟨2, 1, 1, "Pending", "t2"⟩]⟩))
    q13Ge).map (fun r : ProviderDonationRow =>
      (r.Items_Listed, r.Total_Quantity_Listed, r.Quantity_Donated))
  have hpre : ((((q13JoinRows
      ⟨[⟨1, "A", "Restaurant", "Addr", "City X", "123"⟩], [],
        [⟨1, "Rice", 10, "2099-01-01", 1, "Restaurant", "City X", "Vegetarian", "Lunch"⟩],
        [⟨1, 1, 1, "Completed", "t1"⟩, ⟨2, 1, 1, "Pending", "t2"⟩]⟩).map
      (fun t => q9Key t.1)).dedup.map (q13GroupRow
      ⟨[⟨1, "A", "Restaurant", "Addr", "City X", "123"⟩], [],
        [⟨1, "Rice", 10, "2099-01-01", 1, "Restaurant", "City X", "Vegetarian", "Lunch"⟩],
        [⟨1, 1, 1, "Completed", "t1"⟩, ⟨2, 1, 1, "Pending", "t2"⟩]⟩)).map
      (fun r : ProviderDonationRow =>
        (r.Items_Listed, r.Total_Quantity_Listed, r.Quantity_Donated)))
      = [(2, some 20, 10)] := by decide
  rw [hpre] at hperm
  exact hperm

/-- C10: `clean_expired_food` only touches the `food_listings` table: the
`providers`, `receivers` and `claims` tables are unchanged, and in particular
every Claim row (including one whose `Food_ID` referenced a purged listing)
survives the purge. -/
theorem clean_expired_food_frame (db : DB) (today : String) :
    (clean_expired_food db today).2.providers = db.providers
    ∧ (clean_expired_food db today).2.receivers = db.receivers
    ∧ (clean_expired_food db today).2.claims = db.claims
    ∧ ∀ c ∈ db.claims, c ∈ (clean_expired_food db today).2.claims := by
  simp only [clean_expired_food]
  split
  · exact ⟨rfl, rfl, rfl, fun c hc => hc⟩
  · exact ⟨rfl, rfl, rfl, fun c hc => hc⟩

/-- Witness for C10: a claim referencing an expired (hence purged) listing is
still present after the purge. -/
theorem clean_expired_food_frame_witness :
    (⟨1, 1, 1, "Pending", "2024-01-02 09:00:00"⟩ : Claim)
      ∈ (clean_expired_food
          ⟨[], [],
            [⟨1, "Rice", 10, "2020-01-01", 1, "Restaurant", "City X", "Vegetarian", "Lunch"⟩],
            [⟨1, 1, 1, "Pending", "2024-01-02 09:00:00"⟩]⟩
          "2024-06-01").2.claims :=
  (clean_expired_food_frame
      ⟨[], [],
        [⟨1, "Rice", 10, "2020-01-01", 1, "Restaurant", "City X", "Vegetarian", "Lunch"⟩],
        [⟨1, 1, 1, "Pending", "2024-01-02 09:00:00"⟩]⟩
      "2024-06-01").2.2.2
    ⟨1, 1, 1, "Pending", "2024-01-02 09:00:00"⟩ (List.mem_singleton.mpr rfl)

end FoodWaste
